import Mathlib

/-!
Verification of the canhttpd2 CAN-bus access core (src/canhttpd2.py).

The development shallowly embeds the Python source: the integer-parsing
semantics of int() with bases 0, 10 and 16, the configuration validators
get_channel / get_baudrate / get_mode, the simulated bus TestModeCanBus,
the bus factory make_canbus, and the request handler CanBusProxy.proxy
together with the shutdown hook CanBusProxy.on_stop.  Opaque vendor-driver
calls (PCANBasic Initialize / Write / Uninitialize on real hardware) are
parameters of the embedded functions; side effects (operational log lines
and hardware touches) are returned explicitly as effect lists.
-/

namespace Canhttpd2

/-- Whitespace characters accepted by Python int() string parsing
    (space, tab, newline, vertical tab, form feed, carriage return). -/
def isPySpace (c : Char) : Bool :=
  c = ' ' || c = '\t' || c = '\n' || c.toNat = 11 || c.toNat = 12 || c.toNat = 13

/-- Numeric value of a digit character, as Python int() sees it
    (0-9, a-z, A-Z). -/
def digitVal (c : Char) : Option Nat :=
  if '0' ≤ c ∧ c ≤ '9' then some (c.toNat - '0'.toNat)
  else if 'a' ≤ c ∧ c ≤ 'z' then some (c.toNat - 'a'.toNat + 10)
  else if 'A' ≤ c ∧ c ≤ 'Z' then some (c.toNat - 'A'.toNat + 10)
  else none

/-- Accumulate digits in the given base; fails on a non-digit or a digit
    not below the base. -/
def parseDigitsAux (base : Nat) : List Char → Nat → Option Nat
  | [], acc => some acc
  | c :: cs, acc =>
    match digitVal c with
    | some d => if d < base then parseDigitsAux base cs (acc * base + d) else none
    | none => none

/-- Parse a non-empty run of digits in the given base. -/
def parseDigits (base : Nat) : List Char → Option Nat
  | [] => none
  | c :: cs => parseDigitsAux base (c :: cs) 0

/-- Strip leading and trailing Python whitespace. -/
def stripWs (cs : List Char) : List Char :=
  ((cs.dropWhile isPySpace).reverse.dropWhile isPySpace).reverse

/-- Split off an optional leading sign; returns (negative?, rest). -/
def splitSign : List Char → Bool × List Char
  | '+' :: cs => (false, cs)
  | '-' :: cs => (true, cs)
  | cs => (false, cs)

/-- Magnitude grammar of Python 2 int(s, 0): 0x/0X hex, 0o/0O octal,
    0b/0B binary, a leading 0 followed by octal digits (legacy octal,
    so a bare "0" or "00" is zero), otherwise decimal. -/
def magnitudeAuto : List Char → Option Nat
  | ['0'] => some 0
  | '0' :: c :: cs =>
    if c = 'x' ∨ c = 'X' then parseDigits 16 cs
    else if c = 'o' ∨ c = 'O' then parseDigits 8 cs
    else if c = 'b' ∨ c = 'B' then parseDigits 2 cs
    else parseDigits 8 (c :: cs)
  | cs => parseDigits 10 cs

/-- Magnitude grammar of Python int(s, 16): optional 0x/0X, then hex
    digits. -/
def magnitudeHex : List Char → Option Nat
  | '0' :: c :: cs =>
    if c = 'x' ∨ c = 'X' then parseDigits 16 cs
    else parseDigits 16 ('0' :: c :: cs)
  | cs => parseDigits 16 cs

/-- Python int(s, base) on a string, for the bases the program uses
    (0, 10, 16): strip whitespace, optional sign, base-specific magnitude.
    none models a raised ValueError. -/
def pyIntStr (s : String) (base : Nat) : Option Int :=
  let p := splitSign (stripWs s.data)
  let mag :=
    if base = 0 then magnitudeAuto p.2
    else if base = 16 then magnitudeHex p.2
    else parseDigits base p.2
  match mag with
  | some m => some (if p.1 then -(m : Int) else (m : Int))
  | none => none

/-- A configuration value as it comes out of the JSON file: an integer or
    a string. -/
inductive PyVal where
  | int (n : Int)
  | str (s : String)
deriving DecidableEq

/-- The Python exceptions the embedded code can raise. -/
inductive PyError where
  | invalidConfiguration (msg : String)
  | valueError (msg : String)
  | typeError (msg : String)
  | attributeError (msg : String)
deriving DecidableEq

/-- ASCII uppercase of one character, as Python 2 str.upper() does it
    under the default C locale. -/
def pyUpperChar (c : Char) : Char :=
  if 'a' ≤ c ∧ c ≤ 'z' then Char.ofNat (c.toNat - 32) else c

/-- Python 2 str.upper(): ASCII-only uppercasing, applied per byte. -/
def pyUpper (s : String) : String :=
  ⟨s.data.map pyUpperChar⟩

/-- str() of a configuration value. -/
def pyStr : PyVal → String
  | .int n => toString n
  | .str s => s

/-- Python int(x): identity on integers, base-10 parse on strings,
    ValueError if the string does not parse. -/
def pyIntCoerce : PyVal → Except PyError Int
  | .int n => .ok n
  | .str s =>
    match pyIntStr s 10 with
    | some n => .ok n
    | none => .error (.valueError ("invalid literal for int with base 10: " ++ s))

/-- A resolved PCAN channel constant (PCAN_USBBUSn). -/
inductive PcanChannel where
  | usbbus (n : Int)
deriving DecidableEq

/-- A resolved PCAN baud-rate constant (PCAN_BAUD_label). -/
inductive PcanBaud where
  | baud (label : String)
deriving DecidableEq

/-- A resolved PCAN message-mode constant. -/
inductive PcanMode where
  | standard
  | extended
deriving DecidableEq

/-- The OK sentinel status of the vendor driver. -/
def PCAN_ERROR_OK : Nat := 0

/-- str() of a status value that may be None. -/
def optStr : Option Nat → String
  | none => "None"
  | some r => toString r

/-- Embeds get_channel (src/canhttpd2.py lines 71-85): int() the value,
    require membership in range(1, 9), resolve to PCAN_USBBUSn.  A
    non-numeric string makes int() raise ValueError, which propagates. -/
def get_channel (channel : PyVal) : Except PyError PcanChannel :=
  match pyIntCoerce channel with
  | .error e => .error e
  | .ok n =>
    if 1 ≤ n ∧ n ≤ 8 then .ok (.usbbus n)
    else .error (.invalidConfiguration
      (toString n ++ " is not a valid CAN-Bus channel. Legal values are: [1, 2, 3, 4, 5, 6, 7, 8]"))

/-- The fixed legal baud-rate labels of get_baudrate. -/
def legal_values : List String :=
  ["1M", "800K", "500K", "250K", "125K", "100K", "95K", "83K",
   "50K", "47K", "33K", "20K", "10K", "5K"]

/-- Embeds get_baudrate (lines 88-106): uppercase the string and check it
    against the fixed list.  An integer value has no upper() method, so
    Python would raise AttributeError. -/
def get_baudrate (baudrate : PyVal) : Except PyError PcanBaud :=
  match baudrate with
  | .int _ => .error (.attributeError "int object has no attribute upper")
  | .str s =>
    if (pyUpper s) ∈ legal_values then .ok (.baud (pyUpper s))
    else .error (.invalidConfiguration
      ("CANHTTPD2 <" ++ (pyUpper s) ++ "> is not a legal baud rate value."))

/-- Embeds get_mode (lines 109-122): uppercase and compare against
    STANDARD / EXTENDED. -/
def get_mode (mode : PyVal) : Except PyError PcanMode :=
  match mode with
  | .int _ => .error (.attributeError "int object has no attribute upper")
  | .str s =>
    if (pyUpper s) = "STANDARD" then .ok .standard
    else if (pyUpper s) = "EXTENDED" then .ok .extended
    else .error (.invalidConfiguration
      ("<" ++ (pyUpper s) ++ "> is not a valid mode name. Legal values are: standard, extended"))

/-- True exactly when the computation failed with
    InvalidConfigurationException. -/
def isInvalidConfigFailure {α : Type} : Except PyError α → Bool
  | .error (.invalidConfiguration _) => true
  | _ => false

/-- True exactly when the computation failed with ValueError. -/
def isValueErrorFailure {α : Type} : Except PyError α → Bool
  | .error (.valueError _) => true
  | _ => false

/-- True exactly when the computation raised any exception. -/
def isFailure {α : Type} : Except PyError α → Bool
  | .error _ => true
  | .ok _ => false

/-- An observable side effect: an operational log line, or a touch of the
    real hardware driver. -/
inductive Effect where
  | log (msg : String)
  | hw (op : String)
deriving DecidableEq

/-- True exactly on hardware effects. -/
def Effect.isHw : Effect → Bool
  | .hw _ => true
  | .log _ => false

namespace TestModeCanBus

/-- Embeds TestModeCanBus.Initialize (lines 129-131): log the invocation,
    return the OK sentinel.  Arguments of any type are accepted and
    ignored; the returned value is Option-typed because Python methods
    without a return statement yield None. -/
def Initialize {α : Type} (_args : List α) : Option Nat × List Effect :=
  (some PCAN_ERROR_OK, [.log "CANHTTPD2 TestModeCanBus.Initialize()"])

/-- Embeds TestModeCanBus.Uninitialize (lines 133-134): log the
    invocation; the method body has no return statement, so it returns
    None. -/
def Uninitialize {α : Type} (_args : List α) : Option Nat × List Effect :=
  (none, [.log "CANHTTPD2 TestModeCanBus.Uninitialize()"])

/-- Embeds TestModeCanBus.Write (lines 136-138): log the invocation,
    return the OK sentinel. -/
def Write {α : Type} (_args : List α) : Option Nat × List Effect :=
  (some PCAN_ERROR_OK, [.log "CANHTTPD2 TestModeCanBus.Write()"])

end TestModeCanBus

/-- The raw configuration record consumed by make_canbus. -/
structure Configuration where
  canbus_channel : PyVal
  canbus_baudrate : PyVal
  canbus_mode : PyVal
  canbus_id : PyVal
deriving DecidableEq

/-- Which bus variant a handle wraps. -/
inductive BusKind where
  | testMode
  | hardware
deriving DecidableEq

/-- A constructed bus handle: the variant plus the resolved configuration
    constants attached to it by make_canbus. -/
structure BusHandle where
  kind : BusKind
  canbus_id : Int
  canbus_channel : PcanChannel
  canbus_baudrate : PcanBaud
  canbus_mode : PcanMode
deriving DecidableEq

/-- int(cfg canbus_id, 16) as make_canbus calls it (line 155): only
    strings may be parsed with an explicit base; failure to parse is a
    ValueError. -/
def parse_canbus_id (v : PyVal) : Except PyError Int :=
  match v with
  | .int _ => .error (.typeError "int cannot be converted with explicit base")
  | .str s =>
    match pyIntStr s 16 with
    | some n => .ok n
    | none => .error (.valueError ("invalid literal for int with base 16: " ++ s))

/-- Outcome of make_canbus: the returned handle or the raised exception,
    the emitted effects, and whether cherrypy.engine.exit() was called. -/
structure MakeBusResult where
  result : Except PyError BusHandle
  effects : List Effect
  engineExit : Bool

/-- Embeds make_canbus (lines 141-172).  The opaque hardware Initialize
    call is the parameter hwInit (its returned status); in test mode
    TestModeCanBus.Initialize is used instead.  Order follows the source:
    id parse (ValueError converted to InvalidConfigurationException),
    then channel, baudrate and mode validation, then the Initialize call;
    a non-OK Initialize status is logged and requests engine exit, after
    which the handle is still returned. -/
def make_canbus (cfg : Configuration) (testmode : Bool)
    (hwInit : PcanChannel → PcanBaud → PcanMode → Nat) : MakeBusResult :=
  let kind := if testmode then BusKind.testMode else BusKind.hardware
  match parse_canbus_id cfg.canbus_id with
  | .error (.valueError _) =>
    { result := .error (.invalidConfiguration
        ("<" ++ pyStr cfg.canbus_id ++ "> is not a valid CAN-Bus ID. Hex number expected.")),
      effects := [], engineExit := false }
  | .error e => { result := .error e, effects := [], engineExit := false }
  | .ok idv =>
    match get_channel cfg.canbus_channel with
    | .error e => { result := .error e, effects := [], engineExit := false }
    | .ok ch =>
      match get_baudrate cfg.canbus_baudrate with
      | .error e => { result := .error e, effects := [], engineExit := false }
      | .ok bd =>
        match get_mode cfg.canbus_mode with
        | .error e => { result := .error e, effects := [], engineExit := false }
        | .ok md =>
          let handle : BusHandle :=
            { kind := kind, canbus_id := idv, canbus_channel := ch,
              canbus_baudrate := bd, canbus_mode := md }
          let ir : Option Nat × List Effect :=
            match kind with
            | .testMode => TestModeCanBus.Initialize [ch]
            | .hardware => (some (hwInit ch bd md), [.hw "Initialize"])
          if ir.1 ≠ some PCAN_ERROR_OK then
            { result := .ok handle,
              effects := ir.2 ++ [.log ("CAN-Bus initialization FAILED! Error: " ++ optStr ir.1)],
              engineExit := true }
          else
            { result := .ok handle, effects := ir.2, engineExit := false }

/-- Modelled from the spec: TPCANMsg is a ctypes structure of the vendor
    PCANBasic driver, which is not part of this repository.  Per the
    spec, a Frame carries an id, a fixed length, a type and an 8-byte
    data array; the ctypes c_ubyte array is zero-initialised and stores
    each assigned value modulo 256. -/
structure TPCANMsg where
  ID : Int
  LEN : Nat
  MSGTYPE : PcanMode
  DATA : List Nat
deriving DecidableEq

/-- The frame built by CanBusProxy.proxy (lines 254-258): ID from the
    handle, LEN 8, MSGTYPE from the handle, data byte 0 the parsed value
    modulo 256, the remaining seven bytes left at zero. -/
def buildMsg (h : BusHandle) (numvalue : Int) : TPCANMsg :=
  { ID := h.canbus_id, LEN := 8, MSGTYPE := h.canbus_mode,
    DATA := (numvalue % 256).toNat :: List.replicate 7 0 }

/-- The HTTP response produced by a handler: the default empty success
    body, or an explicit status line with a plain-text body. -/
inductive HttpResponse where
  | emptySuccess
  | plainText (status : String) (body : String)
deriving DecidableEq

/-- Outcome of one proxy invocation: the response, the emitted effects,
    and the Write calls performed on the bus capability (channel and
    frame arguments). -/
structure ProxyOutcome where
  response : HttpResponse
  effects : List Effect
  writes : List (PcanChannel × TPCANMsg)
deriving DecidableEq

/-- The CanBusProxy state the request handler reads: the held bus handle,
    None before a successful start. -/
structure CanBusProxy where
  canbus : Option BusHandle
deriving DecidableEq

/-- The failure log line of proxy (line 252), formatted with the original
    input value and the failure detail. -/
def errmsg (value : String) (err : String) : String :=
  "CANHTTPD2 Sending value <" ++ value ++ "> to CAN-Bus FAILED! Error: " ++ err

/-- Detail of the AttributeError raised when self.canbus is None and
    proxy dereferences it (line 255). -/
def noneTypeAttributeError : String :=
  "NoneType object has no attribute canbus_id"

/-- The Write call self.canbus.Write(channel, msg) (line 260), dispatched
    on the bus variant: the simulated bus logs and returns OK; the
    hardware bus is the opaque parameter hwWrite, whose Except models a
    returned status (ok) or a raised hardware exception (error). -/
def busWriteCall (h : BusHandle) (msg : TPCANMsg)
    (hwWrite : PcanChannel → TPCANMsg → Except String Nat) :
    Except String (Option Nat) × List Effect :=
  match h.kind with
  | .testMode => (.ok (TestModeCanBus.Write [msg]).1, (TestModeCanBus.Write [msg]).2)
  | .hardware =>
    match hwWrite h.canbus_channel msg with
    | .ok r => (.ok (some r), [.hw "Write"])
    | .error e => (.error e, [.hw "Write"])

namespace CanBusProxy

/-- Embeds CanBusProxy.proxy (lines 241-269).  Empty or absent value:
    empty success, nothing happens.  Unparseable value: status 400 with
    the fixed plain-text body, no write.  Parsed value: build the frame,
    call Write on the held bus; a held None handle raises AttributeError
    inside the try block; any exception or non-OK status is logged and
    the response is the empty success body in every case. -/
def proxy (self : CanBusProxy) (value : Option String)
    (hwWrite : PcanChannel → TPCANMsg → Except String Nat) : ProxyOutcome :=
  match value with
  | none => { response := .emptySuccess, effects := [], writes := [] }
  | some v =>
    if v = "" then { response := .emptySuccess, effects := [], writes := [] }
    else
      match pyIntStr v 0 with
      | none =>
        { response := .plainText "400 Integer value expected." "Integer value expected.",
          effects := [], writes := [] }
      | some numvalue =>
        match self.canbus with
        | none =>
          { response := .emptySuccess,
            effects := [.log (errmsg v noneTypeAttributeError)],
            writes := [] }
        | some h =>
          match busWriteCall h (buildMsg h numvalue) hwWrite with
          | (.error e, weff) =>
            { response := .emptySuccess,
              effects := weff ++ [.log (errmsg v e)],
              writes := [(h.canbus_channel, buildMsg h numvalue)] }
          | (.ok res, weff) =>
            if res ≠ some PCAN_ERROR_OK then
              { response := .emptySuccess,
                effects := weff ++ [.log (errmsg v (optStr res))],
                writes := [(h.canbus_channel, buildMsg h numvalue)] }
            else
              { response := .emptySuccess,
                effects := weff ++ [.log ("CANHTTPD2 Value <" ++ v ++ "> has been sent onto CAN-Bus.")],
                writes := [(h.canbus_channel, buildMsg h numvalue)] }

/-- Embeds CanBusProxy.on_stop (lines 199-204): if a handle is held, call
    Uninitialize with its channel (dispatched on the variant; hwUninit is
    the opaque hardware call); self.canbus is not modified.  Returns the
    new proxy state, the effects, and the Uninitialize calls performed
    (their channel arguments). -/
def on_stop (self : CanBusProxy) (hwUninit : PcanChannel → List Effect) :
    CanBusProxy × List Effect × List PcanChannel :=
  match self.canbus with
  | none => (self, [], [])
  | some h =>
    match h.kind with
    | .testMode => (self, ( TestModeCanBus.Uninitialize [h.canbus_channel]).2, [h.canbus_channel])
    | .hardware => (self, hwUninit h.canbus_channel, [h.canbus_channel])

end CanBusProxy

end Canhttpd2

/-! ## Theorems -/

namespace Canhttpd2

/-- A string that int(s, 0) parses is in particular non-empty. -/
theorem pyIntStr_zero_some_ne_empty {v : String} {n : Int}
    (hv : pyIntStr v 0 = some n) : v ≠ "" := by
  intro he
  subst he
  rw [show pyIntStr "" 0 = none from rfl] at hv
  exact Option.noConfusion hv

/-- C9: invoking the proxy handler with an absent or empty value produces
    an empty success response with no Write call, no effect and no error;
    the handler reads but never changes the proxy state, so any number of
    such invocations are all identical no-ops. -/
theorem proxy_empty_value_noop (self : CanBusProxy)
    (hwWrite : PcanChannel → TPCANMsg → Except String Nat) :
    self.proxy none hwWrite = { response := .emptySuccess, effects := [], writes := [] } ∧
    self.proxy (some "") hwWrite = { response := .emptySuccess, effects := [], writes := [] } :=
  ⟨rfl, rfl⟩

/-- C2: for every non-empty input string that does not parse as an
    auto-base integer, the proxy handler responds with HTTP status 400
    and the plain-text body "Integer value expected.", and performs no
    Write call. -/
theorem proxy_nonparse_returns_400 (self : CanBusProxy)
    (hwWrite : PcanChannel → TPCANMsg → Except String Nat)
    (v : String) (hne : v ≠ "") (hv : pyIntStr v 0 = none) :
    self.proxy (some v) hwWrite =
      { response := .plainText "400 Integer value expected." "Integer value expected.",
        effects := [], writes := [] } := by
  simp only [CanBusProxy.proxy, if_neg hne, hv]

/-- C2 witness at the concrete input "abc". -/
theorem proxy_nonparse_returns_400_witness :
    (CanBusProxy.mk none).proxy (some "abc") (fun _ _ => .ok 0) =
      { response := .plainText "400 Integer value expected." "Integer value expected.",
        effects := [], writes := [] } :=
  proxy_nonparse_returns_400 _ _ "abc" (by decide) rfl

/-- C10: a syntactically valid integer request arriving while no bus
    handle is held (self.canbus is None) raises inside the try block; the
    exception is caught and logged with the input value, no Write occurs,
    and the response is still the empty success body. -/
theorem proxy_no_handle_logs_and_succeeds (self : CanBusProxy)
    (hwWrite : PcanChannel → TPCANMsg → Except String Nat)
    (v : String) (n : Int)
    (hv : pyIntStr v 0 = some n) (hb : self.canbus = none) :
    self.proxy (some v) hwWrite =
      { response := .emptySuccess,
        effects := [.log (errmsg v noneTypeAttributeError)],
        writes := [] } := by
  have hne : v ≠ "" := pyIntStr_zero_some_ne_empty hv
  simp only [CanBusProxy.proxy, if_neg hne, hv, hb]

/-- C10 witness at the concrete input "7" with no held handle. -/
theorem proxy_no_handle_logs_and_succeeds_witness :
    (CanBusProxy.mk none).proxy (some "7") (fun _ _ => .ok 0) =
      { response := .emptySuccess,
        effects := [.log (errmsg "7" noneTypeAttributeError)],
        writes := [] } :=
  proxy_no_handle_logs_and_succeeds _ _ "7" 7 rfl rfl

/-- C1: for every input string that parses as an auto-base integer
    (decimal, 0x hex, 0o octal), with a bus handle held, the proxy
    handler performs exactly one Write call, whose frame has the handle's
    resolved id as ID, the resolved mode as type, length 8, the parsed
    value modulo 256 in data byte 0, and zeros in data bytes 1-7. -/
theorem proxy_valid_value_writes_one_frame (self : CanBusProxy) (h : BusHandle)
    (hwWrite : PcanChannel → TPCANMsg → Except String Nat) (v : String) (n : Int)
    (hv : pyIntStr v 0 = some n) (hb : self.canbus = some h) :
    (self.proxy (some v) hwWrite).writes =
      [(h.canbus_channel,
        { ID := h.canbus_id, LEN := 8, MSGTYPE := h.canbus_mode,
          DATA := (n % 256).toNat :: List.replicate 7 0 })] := by
  have hne : v ≠ "" := pyIntStr_zero_some_ne_empty hv
  simp only [CanBusProxy.proxy, if_neg hne, hv, hb]
  cases hbw : busWriteCall h (buildMsg h n) hwWrite with
  | mk fst snd =>
    cases fst with
    | error e => simp [buildMsg]
    | ok res =>
      by_cases hres : res = some PCAN_ERROR_OK <;> simp [hres, buildMsg]

/-- C1 witness: value "0x23" against a held hardware handle. -/
theorem proxy_valid_value_writes_one_frame_witness :
    ((CanBusProxy.mk (some ⟨.hardware, 1094795585, .usbbus 1, .baud "250K", .extended⟩)).proxy
        (some "0x23") (fun _ _ => .ok 0)).writes =
      [(.usbbus 1,
        { ID := 1094795585, LEN := 8, MSGTYPE := .extended,
          DATA := ((35 : Int) % 256).toNat :: List.replicate 7 0 })] :=
  proxy_valid_value_writes_one_frame _ _ _ "0x23" 35 rfl rfl

/-- C3: for every syntactically valid request with a held bus handle, the
    response is the empty success body regardless of the hardware
    outcome; a non-OK status returned by the hardware Write, or an
    exception it raises, is logged with the original input value and the
    failure detail and never surfaced to the HTTP caller. -/
theorem proxy_swallows_write_failures (self : CanBusProxy) (h : BusHandle)
    (hwWrite : PcanChannel → TPCANMsg → Except String Nat) (v : String) (n : Int)
    (hv : pyIntStr v 0 = some n) (hb : self.canbus = some h) :
    (self.proxy (some v) hwWrite).response = .emptySuccess ∧
    (∀ r, h.kind = .hardware → hwWrite h.canbus_channel (buildMsg h n) = .ok r →
      r ≠ PCAN_ERROR_OK →
      Effect.log (errmsg v (toString r)) ∈ (self.proxy (some v) hwWrite).effects) ∧
    (∀ e, h.kind = .hardware → hwWrite h.canbus_channel (buildMsg h n) = .error e →
      Effect.log (errmsg v e) ∈ (self.proxy (some v) hwWrite).effects) := by
  have hne : v ≠ "" := pyIntStr_zero_some_ne_empty hv
  refine ⟨?_, ?_, ?_⟩
  · simp only [CanBusProxy.proxy, if_neg hne, hv, hb]
    cases hbw : busWriteCall h (buildMsg h n) hwWrite with
    | mk fst snd =>
      cases fst with
      | error e => simp
      | ok res =>
        by_cases hres : res = some PCAN_ERROR_OK <;> simp [hres]
  · intro r hk hw hr
    have hbw : busWriteCall h (buildMsg h n) hwWrite = (.ok (some r), [.hw "Write"]) := by
      simp only [busWriteCall, hk, hw]
    simp only [CanBusProxy.proxy, if_neg hne, hv, hb, hbw]
    have hsr : (some r ≠ some PCAN_ERROR_OK) := by simpa using hr
    simp [hsr, optStr]
  · intro e hk hw
    have hbw : busWriteCall h (buildMsg h n) hwWrite = (.error e, [.hw "Write"]) := by
      simp only [busWriteCall, hk, hw]
    simp only [CanBusProxy.proxy, if_neg hne, hv, hb, hbw]
    simp

/-- C3 witness: value "5", hardware Write returning the non-OK status 1:
    the response stays empty success and the failure is logged. -/
theorem proxy_swallows_write_failures_witness :
    ((CanBusProxy.mk (some ⟨.hardware, 10, .usbbus 1, .baud "250K", .extended⟩)).proxy
        (some "5") (fun _ _ => .ok 1)).response = .emptySuccess ∧
    Effect.log (errmsg "5" "1") ∈
      ((CanBusProxy.mk (some ⟨.hardware, 10, .usbbus 1, .baud "250K", .extended⟩)).proxy
        (some "5") (fun _ _ => .ok 1)).effects :=
  ⟨(proxy_swallows_write_failures _ _ _ "5" 5 rfl rfl).1,
   (proxy_swallows_write_failures _ _ _ "5" 5 rfl rfl).2.1 1 rfl rfl (by decide)⟩

/-- C4 counterexample: with a valid configuration and a hardware
    Initialize call that returns the non-OK status 1, make_canbus does
    not fail: it still returns a fully populated bus handle (while also
    requesting engine exit). -/
theorem make_canbus_init_failure_returns_handle_cex :
    (make_canbus ⟨.int 1, .str "250K", .str "extended", .str "0x41414141"⟩ false
        (fun _ _ _ => 1)).result
      = .ok ⟨.hardware, 1094795585, .usbbus 1, .baud "250K", .extended⟩ ∧
    (make_canbus ⟨.int 1, .str "250K", .str "extended", .str "0x41414141"⟩ false
        (fun _ _ _ => 1)).engineExit = true :=
  ⟨rfl, rfl⟩

/-- C4 (amended): if the hardware Initialize call returns a non-OK
    status, make_canbus logs the failure and requests server termination
    via cherrypy.engine.exit(), but raises no error and still returns the
    populated bus handle. -/
theorem make_canbus_init_failure_exits_and_returns_handle
    (cfg : Configuration) (hwInit : PcanChannel → PcanBaud → PcanMode → Nat)
    (i : Int) (ch : PcanChannel) (bd : PcanBaud) (md : PcanMode)
    (hid : parse_canbus_id cfg.canbus_id = .ok i)
    (hch : get_channel cfg.canbus_channel = .ok ch)
    (hbd : get_baudrate cfg.canbus_baudrate = .ok bd)
    (hmd : get_mode cfg.canbus_mode = .ok md)
    (hfail : hwInit ch bd md ≠ PCAN_ERROR_OK) :
    make_canbus cfg false hwInit =
      { result := .ok { kind := .hardware, canbus_id := i, canbus_channel := ch,
                        canbus_baudrate := bd, canbus_mode := md },
        effects := [.hw "Initialize",
                    .log ("CAN-Bus initialization FAILED! Error: " ++ toString (hwInit ch bd md))],
        engineExit := true } := by
  simp only [make_canbus, hid, hch, hbd, hmd]
  have hs : (some (hwInit ch bd md) ≠ some PCAN_ERROR_OK) := by simpa using hfail
  simp [hs, optStr]

/-- C4 witness: a concrete valid configuration with Initialize status 1. -/
theorem make_canbus_init_failure_exits_and_returns_handle_witness :
    make_canbus ⟨.int 1, .str "250K", .str "extended", .str "0x41414141"⟩ false
        (fun _ _ _ => 1) =
      { result := .ok { kind := .hardware, canbus_id := 1094795585,
                        canbus_channel := .usbbus 1, canbus_baudrate := .baud "250K",
                        canbus_mode := .extended },
        effects := [.hw "Initialize", .log "CAN-Bus initialization FAILED! Error: 1"],
        engineExit := true } :=
  make_canbus_init_failure_exits_and_returns_handle _ _
    1094795585 (.usbbus 1) (.baud "250K") .extended rfl rfl rfl rfl (by decide)

/-- C5 counterexample: a non-numeric channel value does not fail with
    InvalidConfigurationException; int() raises ValueError, which
    propagates uncaught from get_channel. -/
theorem get_channel_nonnumeric_cex :
    get_channel (.str "abc")
      = .error (.valueError "invalid literal for int with base 10: abc") ∧
    isInvalidConfigFailure (get_channel (.str "abc")) = false :=
  ⟨rfl, rfl⟩

/-- C5 (amended): a non-numeric channel value fails with ValueError
    (raised by int() and propagated), an integer channel value outside
    [1, 8] fails with InvalidConfigurationException, and whenever channel
    validation fails the bus factory raises before the Initialize call:
    it produces no effect at all, hardware calls included. -/
theorem get_channel_failure_classification (v : PyVal) :
    ((∃ s, v = PyVal.str s ∧ pyIntStr s 10 = none) →
      isValueErrorFailure (get_channel v) = true) ∧
    (∀ n, pyIntCoerce v = .ok n → ¬(1 ≤ n ∧ n ≤ 8) →
      isInvalidConfigFailure (get_channel v) = true) ∧
    (∀ (cfg : Configuration) (tm : Bool)
      (hwInit : PcanChannel → PcanBaud → PcanMode → Nat) (e : PyError),
      cfg.canbus_channel = v → get_channel v = .error e →
      (make_canbus cfg tm hwInit).effects = [] ∧
      isFailure (make_canbus cfg tm hwInit).result = true) := by
  refine ⟨?_, ?_, ?_⟩
  · rintro ⟨s, rfl, hs⟩
    simp [get_channel, pyIntCoerce, hs, isValueErrorFailure]
  · intro n hn hrange
    simp only [get_channel, hn]
    simp [if_neg hrange, isInvalidConfigFailure]
  · intro cfg tm hwInit e hcfg herr
    subst hcfg
    cases hid : parse_canbus_id cfg.canbus_id with
    | error e2 =>
      cases e2 <;> simp [make_canbus, hid, isFailure]
    | ok idv =>
      simp [make_canbus, hid, herr, isFailure]

/-- C5 witness: channel "abc" fails with ValueError; channel 9 fails with
    InvalidConfigurationException; the factory on channel "abc" produces
    no effect. -/
theorem get_channel_failure_classification_witness :
    isValueErrorFailure (get_channel (.str "abc")) = true ∧
    isInvalidConfigFailure (get_channel (.int 9)) = true ∧
    (make_canbus ⟨.str "abc", .str "250K", .str "extended", .str "0x41414141"⟩ false
      (fun _ _ _ => 0)).effects = [] :=
  ⟨(get_channel_failure_classification (.str "abc")).1 ⟨"abc", rfl, rfl⟩,
   (get_channel_failure_classification (.int 9)).2.1 9 rfl (by decide),
   ((get_channel_failure_classification (.str "abc")).2.2
      ⟨.str "abc", .str "250K", .str "extended", .str "0x41414141"⟩ false (fun _ _ _ => 0)
      (.valueError "invalid literal for int with base 10: abc") rfl rfl).1⟩

/-- C6 counterexample: the simulated bus method Uninitialize does not
    return the OK sentinel; its body has no return statement, so it
    returns None. -/
theorem testmode_uninit_returns_none_cex :
    ( TestModeCanBus.Uninitialize ([] : List Nat)).1 = none ∧
    ( TestModeCanBus.Uninitialize ([] : List Nat)).1 ≠ some PCAN_ERROR_OK :=
  ⟨rfl, by decide⟩

/-- C6 (amended): in simulated mode, Initialize and Write always return
    the OK sentinel for all arguments, Uninitialize always returns None,
    and each of the three calls only writes one log line, never touching
    any hardware resource. -/
theorem testmode_bus_behaviour (α : Type) (args : List α) :
    TestModeCanBus.Initialize args
      = (some PCAN_ERROR_OK, [Effect.log "CANHTTPD2 TestModeCanBus.Initialize()"]) ∧
    TestModeCanBus.Write args
      = (some PCAN_ERROR_OK, [Effect.log "CANHTTPD2 TestModeCanBus.Write()"]) ∧
    ( TestModeCanBus.Uninitialize args)
      = (none, [Effect.log "CANHTTPD2 TestModeCanBus.Uninitialize()"]) ∧
    ((TestModeCanBus.Initialize args).2 ++ (TestModeCanBus.Write args).2 ++
        ( TestModeCanBus.Uninitialize args).2).all (fun e => !e.isHw) = true :=
  ⟨rfl, rfl, rfl, rfl⟩

/-- C7 counterexample: after on_stop the stored handle is not cleared:
    self.canbus still holds the same bus handle. -/
theorem on_stop_keeps_stale_handle_cex :
    ((CanBusProxy.mk (some ⟨.testMode, 1094795585, .usbbus 1, .baud "250K", .extended⟩)).on_stop
        (fun _ => [])).1.canbus
      = some ⟨.testMode, 1094795585, .usbbus 1, .baud "250K", .extended⟩ :=
  rfl

/-- C7 (amended): on the stop transition, on_stop calls Uninitialize with
    the held handle's channel exactly when a handle is held; the stored
    handle is not cleared — the proxy state is returned unchanged. -/
theorem on_stop_uninit_keeps_handle (self : CanBusProxy)
    (hwUninit : PcanChannel → List Effect) :
    (self.canbus = none → self.on_stop hwUninit = (self, [], [])) ∧
    (∀ h, self.canbus = some h →
      (self.on_stop hwUninit).2.2 = [h.canbus_channel] ∧
      (self.on_stop hwUninit).1 = self) := by
  constructor
  · intro hb
    simp [CanBusProxy.on_stop, hb]
  · intro h hb
    cases hk : h.kind <;> simp [CanBusProxy.on_stop, hb, hk]

/-- C7 witness: a held hardware handle on channel 2 gets exactly one
    Uninitialize call with that channel and stays stored. -/
theorem on_stop_uninit_keeps_handle_witness :
    ((CanBusProxy.mk (some ⟨.hardware, 5, .usbbus 2, .baud "1M", .standard⟩)).on_stop
        (fun _ => [])).2.2 = [.usbbus 2] ∧
    ((CanBusProxy.mk (some ⟨.hardware, 5, .usbbus 2, .baud "1M", .standard⟩)).on_stop
        (fun _ => [])).1
      = CanBusProxy.mk (some ⟨.hardware, 5, .usbbus 2, .baud "1M", .standard⟩) :=
  (on_stop_uninit_keeps_handle _ _).2 _ rfl

/-- C8: a baudrate string is accepted exactly when its uppercasing is in
    the fixed legal set, and a mode string exactly when its uppercasing
    is STANDARD or EXTENDED (so every case variant of a member is
    accepted); every string outside the sets fails with
    InvalidConfigurationException. -/
theorem baudrate_mode_case_insensitive_validation (b m : String) :
    (pyUpper b ∈ legal_values → get_baudrate (.str b) = .ok (.baud (pyUpper b))) ∧
    (pyUpper b ∉ legal_values →
      isInvalidConfigFailure (get_baudrate (.str b)) = true) ∧
    ((pyUpper m = "STANDARD" ∨ pyUpper m = "EXTENDED") →
      isFailure (get_mode (.str m)) = false) ∧
    ((pyUpper m ≠ "STANDARD" ∧ pyUpper m ≠ "EXTENDED") →
      isInvalidConfigFailure (get_mode (.str m)) = true) := by
  refine ⟨?_, ?_, ?_, ?_⟩
  · intro hmem
    simp [get_baudrate, hmem]
  · intro hmem
    simp [get_baudrate, hmem, isInvalidConfigFailure]
  · rintro (hstd | hext)
    · simp [get_mode, hstd, isFailure]
    · simp [get_mode, hext, isFailure]
  · rintro ⟨hstd, hext⟩
    simp [get_mode, hstd, hext, isInvalidConfigFailure]

/-- C8 witness: "250k" is accepted (case variant of 250K), "9Z" is
    rejected as a baudrate; "Standard" is accepted, "fast" rejected as a
    mode. -/
theorem baudrate_mode_case_insensitive_validation_witness :
    get_baudrate (.str "250k") = .ok (.baud (pyUpper "250k")) ∧
    isInvalidConfigFailure (get_baudrate (.str "9Z")) = true ∧
    isFailure (get_mode (.str "Standard")) = false ∧
    isInvalidConfigFailure (get_mode (.str "fast")) = true :=
  ⟨(baudrate_mode_case_insensitive_validation "250k" "Standard").1 (by decide),
   (baudrate_mode_case_insensitive_validation "9Z" "fast").2.1 (by decide),
   (baudrate_mode_case_insensitive_validation "250k" "Standard").2.2.1 (Or.inl (by decide)),
   (baudrate_mode_case_insensitive_validation "9Z" "fast").2.2.2 (by decide)⟩

end Canhttpd2
